import Mathlib

/-!
Shallow embedding of the load/store unit (LSU) of a cycle-level RISC-V
instruction-set simulator (models/cpu/iss/src/lsu.cpp), together with
proofs about its submission routing, alignment-splitting algorithm,
atomic-operation path and suspend/resume protocol.

The LSU's own fields are translated directly from the `Lsu` class.  Its
external collaborators (execution pipeline, timing model, MMU, register
file, memory interconnect) live outside the excerpted sources, so they are
modelled from the specification's interface contracts as observation
fields of a single simulation state; the memory interface's answer to each
submission is passed to each request function as an explicit argument.
-/

/-- Modelled from the spec: the memory interface contract
`submit(request) -> Success | Pending | Rejected` (the `vp::IO_REQ_*`
status enumeration is outside the excerpted sources).  The same type is
used for the value returned by the LSU request functions. -/
inductive IoStatus where
  | ok
  | invalid
  | pending
deriving DecidableEq

/-- Modelled from the spec: the atomic-operation opcode space of the
collaborating decode layer (`vp::io_req_opcode_e` is outside the excerpted
sources): the load-reserved class plus representative store-class atomics
(conditional-store and fetch-and-modify variants). -/
inductive IoOpcode where
  | LR
  | SC
  | SWAP
  | ADD
deriving DecidableEq

/-- The closed set of resume actions that can be registered in the LSU's
stall callback and dispatched exactly once on transaction completion. -/
inductive ResumeAction where
  | storeResume
  | loadResume
  | elwResume
  | loadSignedResume
  | loadBoxedResume
deriving DecidableEq

/-- Modelled from the spec: the memory interface's answer to an atomic
submission, carrying the status, the realized latency and the value the
interconnect transfers into the destination-register buffer. -/
structure AtomicResp where
  status : IoStatus
  latency : Nat
  ret : Nat

/-- Combined simulation state.  The first block of fields is the `Lsu`
class state from the source (pending-access record, elw flag, stall
callback selector with its register index and width).  The remaining
blocks are the external collaborators of the specification, observed
through counters and logs: the execution pipeline, the register file, the
timing model, the diagnostics channels, and instrumentation recording each
submission and each resume dispatch. -/
structure SimState where
  -- pending-access record and Lsu fields (from the source)
  misaligned_size : Nat
  misaligned_addr : Nat
  misaligned_data : Nat
  misaligned_is_write : Bool
  elw_stalled : Bool
  stall_callback : ResumeAction
  stall_reg : Nat
  stall_size : Nat
  -- execution pipeline collaborator (modelled from the spec)
  stalled : Nat
  insn_stall_count : Nat
  insn_hold_count : Nat
  insn_terminate_count : Nat
  instr_event_is_exec_misaligned : Bool
  full_mode_switch_count : Nat
  busy_enter_count : Nat
  dump_trace_enabled : Bool
  elw_insn : Option Nat
  current_insn_addr : Nat
  -- register file collaborator (modelled from the spec)
  regfile : Nat → Nat
  xlen : Nat
  mhartid : Nat
  -- timing model collaborator (modelled from the spec)
  stall_load_cycles : Nat
  load_events : Nat
  misaligned_events : Nat
  cycles : Nat
  -- diagnostics
  invalid_access_warnings : List (Nat × Nat × Nat × Bool)
  invalid_atomic_warnings : List (Nat × Nat × Nat × IoOpcode)
  unimpl_warnings : Nat
  unimpl_forced_warnings : Nat
  -- instrumentation: submitted requests and resume dispatch count
  reqs : List (Nat × Nat × Nat × Bool)
  atomic_reqs : List (Nat × Nat × IoOpcode × Nat × Nat × Nat)
  resume_count : Nat

/-- Modelled from the spec: `addr & ADDR_MASK` for the fixed power-of-two
alignment granule `g` (the `ADDR_MASK` constant lives in a header outside
the excerpted sources); for a power of two `g` the mask clears the low
bits, which is subtraction of `addr % g`. -/
def align (g addr : Nat) : Nat :=
  addr - addr % g

/-- Modelled from the spec: `iss_get_signed_value(val, bits)` (helper
outside the excerpted sources) sign-extends `val` at width `bits` into a
register of `xlen` bits, in two's-complement representation. -/
def iss_get_signed_value (xlen v bits : Nat) : Nat :=
  let low := v % 2 ^ bits
  if low < 2 ^ (bits - 1) then low else low + (2 ^ xlen - 2 ^ bits)

/-- Modelled from the spec: `iss_get_boxed_value(val, bits)` (helper
outside the excerpted sources) re-encodes `val` at width `bits` in the
boxed/tagged representation, with all bits above the width set. -/
def iss_get_boxed_value (xlen v bits : Nat) : Nat :=
  v % 2 ^ bits + (2 ^ xlen - 2 ^ bits)

/-- Modelled from the spec: the register file's set-register-by-index
operation. -/
def set_reg (s : SimState) (r v : Nat) : SimState :=
  { s with regfile := fun i => if i = r then v else s.regfile i }

/-- `Lsu::reset`: on an active reset clear the elw-stalled flag and the
pending-access record's remaining size; otherwise do nothing. -/
def reset (s : SimState) (active : Bool) : SimState :=
  if active then { s with elw_stalled := false, misaligned_size := 0 } else s

/-- `Lsu::store_resume`: terminate the instruction; the value was already
written by the transfer itself. -/
def store_resume (s : SimState) : SimState :=
  { s with insn_terminate_count := s.insn_terminate_count + 1 }

/-- `Lsu::load_resume`: terminate the instruction; zero-extension was done
by pre-zeroing the register. -/
def load_resume (s : SimState) : SimState :=
  { s with insn_terminate_count := s.insn_terminate_count + 1 }

/-- `Lsu::elw_resume`: terminate the instruction, clear the pending elw
instruction and the stalled flag, and reactivate the core. -/
def elw_resume (s : SimState) : SimState :=
  { s with insn_terminate_count := s.insn_terminate_count + 1,
           elw_insn := none,
           elw_stalled := false,
           busy_enter_count := s.busy_enter_count + 1 }

/-- `Lsu::load_signed_resume`: terminate the instruction, then re-encode
the recorded destination register as sign-extended at the recorded
width. -/
def load_signed_resume (s : SimState) : SimState :=
  let s1 := { s with insn_terminate_count := s.insn_terminate_count + 1 }
  set_reg s1 s1.stall_reg
    (iss_get_signed_value s1.xlen (s1.regfile s1.stall_reg) (s1.stall_size * 8))

/-- `Lsu::load_boxed_resume`: terminate the instruction, then re-encode
the recorded destination register in the boxed representation at the
recorded width. -/
def load_boxed_resume (s : SimState) : SimState :=
  let s1 := { s with insn_terminate_count := s.insn_terminate_count + 1 }
  set_reg s1 s1.stall_reg
    (iss_get_boxed_value s1.xlen (s1.regfile s1.stall_reg) (s1.stall_size * 8))

/-- Dispatch of a resume action (the target of the `stall_callback`
function pointer in the source). -/
def run_resume : ResumeAction → SimState → SimState
  | ResumeAction.storeResume, s => store_resume s
  | ResumeAction.loadResume, s => load_resume s
  | ResumeAction.elwResume, s => elw_resume s
  | ResumeAction.loadSignedResume, s => load_signed_resume s
  | ResumeAction.loadBoxedResume, s => load_boxed_resume s

/-- Invocation of the registered stall callback (`this->stall_callback(this)`
in the source).  The `resume_count` bump is ghost instrumentation counting
resume dispatches, as the specification's testable properties require. -/
def invoke_stall_callback (s : SimState) : SimState :=
  run_resume s.stall_callback { s with resume_count := s.resume_count + 1 }

/-- `Lsu::data_req_aligned`: record the request into the (reused) request
slot and submit it; `resp` is the memory interface's answer `(status,
latency)`.  On immediate success account a nonzero latency and return
success; on permanent rejection emit the diagnostic (program counter,
address, size, direction) and return the error; otherwise suspend the
instruction and return the pending status. -/
def data_req_aligned (s : SimState) (resp : IoStatus × Nat) (addr off size : Nat)
    (is_write : Bool) : SimState × IoStatus :=
  let s1 := { s with reqs := s.reqs ++ [(addr, off, size, is_write)] }
  match resp with
  | (IoStatus.ok, lat) =>
      (if 0 < lat then { s1 with stall_load_cycles := s1.stall_load_cycles + lat } else s1,
        IoStatus.ok)
  | (IoStatus.invalid, _) =>
      ({ s1 with invalid_access_warnings :=
          s1.invalid_access_warnings ++ [(s1.current_insn_addr, addr, size, is_write)] },
        IoStatus.invalid)
  | (IoStatus.pending, _) =>
      ({ s1 with stalled := s1.stalled + 1,
                 insn_stall_count := s1.insn_stall_count + 1 },
        IoStatus.pending)

/-- `Lsu::data_misaligned_req`: account a misaligned event, split the
access at the granule boundary, save the second half into the
pending-access record, and submit the first half via the aligned path.  If
the first half succeeds immediately, register the deferred second half
(`exec_misaligned`) on the instruction event, hold the instruction and
return pending; otherwise emit a forced diagnostic and return the invalid
status. -/
def data_misaligned_req (g : Nat) (s : SimState) (resp : IoStatus × Nat)
    (addr off size : Nat) (is_write : Bool) : SimState × IoStatus :=
  let addr1 := align g (addr + size - 1)
  let size0 := addr1 - addr
  let size1 := size - size0
  let s1 := { s with misaligned_events := s.misaligned_events + 1,
                     misaligned_size := size1,
                     misaligned_data := off + size0,
                     misaligned_addr := addr1,
                     misaligned_is_write := is_write }
  let r := data_req_aligned s1 resp addr off size0 is_write
  if r.2 = IoStatus.ok then
    ({ r.1 with instr_event_is_exec_misaligned := true,
                insn_hold_count := r.1.insn_hold_count + 1 },
      IoStatus.pending)
  else
    ({ r.1 with unimpl_forced_warnings := r.1.unimpl_forced_warnings + 1 },
      IoStatus.invalid)

/-- `Lsu::data_req`: compute the granule of the first and of the last
addressed byte; if they match take the aligned path, otherwise the
misaligned path. -/
def data_req (g : Nat) (s : SimState) (resp : IoStatus × Nat)
    (addr off size : Nat) (is_write : Bool) : SimState × IoStatus :=
  if align g addr = align g (addr + size - 1) then
    data_req_aligned s resp addr off size is_write
  else
    data_misaligned_req g s resp addr off size is_write

/-- `Lsu::exec_misaligned`: the deferred second half of a misaligned
access, fired one cycle after the first half completed.  Accounts one
load event and one cycle, submits the saved second sub-access via the
aligned path; on immediate success re-enables trace dumping, invokes the
registered stall callback and switches the pipeline back to full mode;
otherwise emits an unimplemented warning. -/
def exec_misaligned (s : SimState) (resp : IoStatus × Nat) : SimState :=
  let s0 := { s with load_events := s.load_events + 1, cycles := s.cycles + 1 }
  let r := data_req_aligned s0 resp s0.misaligned_addr s0.misaligned_data
      s0.misaligned_size s0.misaligned_is_write
  if r.2 = IoStatus.ok then
    let s2 := { r.1 with dump_trace_enabled := true }
    let s3 := invoke_stall_callback s2
    { s3 with full_mode_switch_count := s3.full_mode_switch_count + 1 }
  else
    { r.1 with unimpl_warnings := r.1.unimpl_warnings + 1 }

/-- `Lsu::data_response`: asynchronous completion of a previously accepted
request.  Decrements the outstanding-suspension counter, accounts the
returned latency, and invokes the registered stall callback only when the
pending-access record's remaining size is zero. -/
def data_response (s : SimState) (latency : Nat) : SimState :=
  let s1 := { s with stalled := s.stalled - 1 }
  let s2 := { s1 with stall_load_cycles := s1.stall_load_cycles + latency }
  if s2.misaligned_size = 0 then invoke_stall_callback s2 else s2

/-- `Lsu::atomic`: translate the address (load path for the load-reserved
opcode, store path otherwise; a failed translation aborts with no request
issued), then submit the atomic request tagged with the hart identifier.
On immediate success the interconnect has already written the returned
value into the destination register; sign-extend it when the access is
narrower than the native register width, and account a nonzero latency.
On rejection emit the diagnostic.  Otherwise suspend the instruction and
select the resume action: sign-extension resume (recording destination
register and width) when narrower than native, plain completion resume at
native width. -/
def atomic (s : SimState) (load_xlat_fail store_xlat_fail : Bool) (resp : AtomicResp)
    (addr size reg_in reg_out : Nat) (opcode : IoOpcode) : SimState :=
  if (if opcode = IoOpcode.LR then load_xlat_fail else store_xlat_fail) then s
  else
    let s1 := { s with atomic_reqs :=
        s.atomic_reqs ++ [(addr, size, opcode, reg_in, reg_out, s.mhartid)] }
    match resp.status with
    | IoStatus.ok =>
        let s2 := set_reg s1 reg_out resp.ret
        let s3 :=
          if size ≠ s2.xlen / 8 then
            set_reg s2 reg_out (iss_get_signed_value s2.xlen (s2.regfile reg_out) (size * 8))
          else s2
        if 0 < resp.latency then
          { s3 with stall_load_cycles := s3.stall_load_cycles + resp.latency }
        else s3
    | IoStatus.invalid =>
        { s1 with invalid_atomic_warnings :=
            s1.invalid_atomic_warnings ++ [(s1.current_insn_addr, addr, size, opcode)] }
    | IoStatus.pending =>
        let s2 := { s1 with stalled := s1.stalled + 1,
                            insn_stall_count := s1.insn_stall_count + 1 }
        if size ≠ s2.xlen / 8 then
          { s2 with stall_callback := ResumeAction.loadSignedResume,
                    stall_reg := reg_out,
                    stall_size := size }
        else
          { s2 with stall_callback := ResumeAction.storeResume }

/-- A freshly built and reset LSU with clean collaborator observations:
all counters zero, no pending split, registers zeroed, 32-bit registers. -/
def initState : SimState where
  misaligned_size := 0
  misaligned_addr := 0
  misaligned_data := 0
  misaligned_is_write := false
  elw_stalled := false
  stall_callback := ResumeAction.loadResume
  stall_reg := 0
  stall_size := 0
  stalled := 0
  insn_stall_count := 0
  insn_hold_count := 0
  insn_terminate_count := 0
  instr_event_is_exec_misaligned := false
  full_mode_switch_count := 0
  busy_enter_count := 0
  dump_trace_enabled := false
  elw_insn := none
  current_insn_addr := 0
  regfile := fun _ => 0
  xlen := 32
  mhartid := 0
  stall_load_cycles := 0
  load_events := 0
  misaligned_events := 0
  cycles := 0
  invalid_access_warnings := []
  invalid_atomic_warnings := []
  unimpl_warnings := 0
  unimpl_forced_warnings := 0
  reqs := []
  atomic_reqs := []
  resume_count := 0

/-! ## Helper lemmas -/

/-- No resume action changes the resume dispatch count. -/
lemma run_resume_resume_count (a : ResumeAction) (s : SimState) :
    (run_resume a s).resume_count = s.resume_count := by
  cases a <;>
    simp [run_resume, store_resume, load_resume, elw_resume, load_signed_resume,
      load_boxed_resume, set_reg]

/-- No resume action changes the pending-access record's remaining size. -/
lemma run_resume_misaligned_size (a : ResumeAction) (s : SimState) :
    (run_resume a s).misaligned_size = s.misaligned_size := by
  cases a <;>
    simp [run_resume, store_resume, load_resume, elw_resume, load_signed_resume,
      load_boxed_resume, set_reg]

/-- No resume action changes the outstanding-suspension counter. -/
lemma run_resume_stalled (a : ResumeAction) (s : SimState) :
    (run_resume a s).stalled = s.stalled := by
  cases a <;>
    simp [run_resume, store_resume, load_resume, elw_resume, load_signed_resume,
      load_boxed_resume, set_reg]

/-- No resume action changes the timing model's stall account. -/
lemma run_resume_stall_load_cycles (a : ResumeAction) (s : SimState) :
    (run_resume a s).stall_load_cycles = s.stall_load_cycles := by
  cases a <;>
    simp [run_resume, store_resume, load_resume, elw_resume, load_signed_resume,
      load_boxed_resume, set_reg]

/-- An access of positive size at most one granule wide that crosses a
granule boundary ends in exactly the next granule: the granule base of its
last byte is the granule base of its first byte plus the granule size. -/
lemma align_next_granule (g addr size : Nat) (hg : 0 < g) (hs : 0 < size)
    (hsg : size ≤ g) (hcross : align g addr ≠ align g (addr + size - 1)) :
    align g (addr + size - 1) = align g addr + g := by
  have h1 := Nat.div_add_mod addr g
  have h2 := Nat.div_add_mod (addr + size - 1) g
  have hm1 : addr % g < g := Nat.mod_lt _ hg
  have hm2 : (addr + size - 1) % g < g := Nat.mod_lt _ hg
  have e1 : align g addr = g * (addr / g) := by unfold align; omega
  have e2 : align g (addr + size - 1) = g * ((addr + size - 1) / g) := by
    unfold align; omega
  rw [e1, e2] at hcross ⊢
  have hq : addr / g ≤ (addr + size - 1) / g :=
    Nat.div_le_div_right (by omega)
  have hne : addr / g ≠ (addr + size - 1) / g := by
    intro h
    exact hcross (by rw [h])
  have hub : (addr + size - 1) / g < addr / g + 2 := by
    by_contra hcon
    have hle : g * (addr / g + 2) ≤ g * ((addr + size - 1) / g) :=
      Nat.mul_le_mul (Nat.le_refl g) (by omega)
    have hmul : g * (addr / g + 2) = g * (addr / g) + 2 * g := by ring
    omega
  have heq : (addr + size - 1) / g = addr / g + 1 := by omega
  rw [heq]
  ring

/-- The granule base of an address is at most the address. -/
lemma align_le (g x : Nat) : align g x ≤ x := Nat.sub_le _ _

/-! ## Concrete execution used for the lost-wakeup analysis

Granule 4.  Transaction 1: a misaligned 4-byte store at address 3
(`size0 = 1`, `size1 = 3`), whose first half succeeds immediately and
whose deferred second half also succeeds immediately one cycle later.
Transaction 2: a plain aligned 4-byte load at address 8 that the
interconnect accepts as pending; its response then arrives. -/

def scnFirstReq : SimState × IoStatus :=
  data_req 4 initState (IoStatus.ok, 0) 3 0 4 true

def scnAfterSecondHalf : SimState :=
  exec_misaligned scnFirstReq.1 (IoStatus.ok, 0)

def scnSecondReq : SimState × IoStatus :=
  data_req 4 scnAfterSecondHalf (IoStatus.pending, 0) 8 0 4 false

def scnAfterResponse : SimState :=
  data_response scnSecondReq.1 0

/-! ## Claim theorems -/

/-- C10: `Lsu::reset` with `active = true` clears the elw-stalled flag and
the pending-access record's remaining size and changes nothing else, and
with `active = false` it leaves the whole LSU state unchanged. -/
theorem c10_reset_effect (s : SimState) :
    reset s true = { s with elw_stalled := false, misaligned_size := 0 }
    ∧ reset s false = s :=
  ⟨rfl, rfl⟩

/-- C1: the code loses a wakeup, contradicting the claim.  In the concrete
execution below, a misaligned store (both halves succeeding immediately)
is followed by an aligned load whose submission returns `pending`; when
the interconnect's response for that load arrives, the stall callback is
skipped because the pending-access record's remaining size was never
cleared after the misaligned transaction completed (it is still 3), so no
resume-action invocation ever follows the second `pending` result: the
dispatch count stays at the single invocation belonging to the first
transaction. -/
theorem c1_lost_wakeup : scnFirstReq.2 = IoStatus.pending
    ∧ scnAfterSecondHalf.resume_count = 1
    ∧ scnSecondReq.2 = IoStatus.pending
    ∧ scnAfterResponse.resume_count = 1
    ∧ scnAfterResponse.misaligned_size = 3 := by
  decide

/-- C2 counterexample: after the misaligned transaction's second half has
itself completed (the resume action fired and the pipeline switched back
to full mode), the pending-access record's remaining size is still 3, not
zero as the claim states. -/
theorem c2_stale_remaining_size : scnAfterSecondHalf.resume_count = 1
    ∧ scnAfterSecondHalf.full_mode_switch_count = 1
    ∧ scnAfterSecondHalf.misaligned_size ≠ 0 := by
  decide

/-- C2 (amended): `data_response` decrements the outstanding-suspension
counter, accounts the returned latency, and invokes the registered resume
action if and only if the pending-access record's remaining size is zero;
the remaining size is untouched by a plain aligned submission (so it is
zero for a plain single-part transaction issued from a clean state), but
completion of a misaligned transaction's second half also leaves it
untouched, at the saved second-half size — only an active reset clears
it. -/
theorem c2_response_dispatch (s : SimState) (lat : Nat) (resp : IoStatus × Nat)
    (addr off size : Nat) (w : Bool) :
    (data_response s lat).stalled = s.stalled - 1
    ∧ (data_response s lat).stall_load_cycles = s.stall_load_cycles + lat
    ∧ ((data_response s lat).resume_count = s.resume_count + 1 ↔ s.misaligned_size = 0)
    ∧ (data_req_aligned s resp addr off size w).1.misaligned_size = s.misaligned_size
    ∧ (exec_misaligned s resp).misaligned_size = s.misaligned_size
    ∧ (reset s true).misaligned_size = 0 := by
  refine ⟨?_, ?_, ?_, ?_, ?_, rfl⟩
  · by_cases h : s.misaligned_size = 0 <;>
      simp [data_response, invoke_stall_callback, h, run_resume_stalled]
  · by_cases h : s.misaligned_size = 0 <;>
      simp [data_response, invoke_stall_callback, h, run_resume_stall_load_cycles]
  · by_cases h : s.misaligned_size = 0 <;>
      simp [data_response, invoke_stall_callback, h, run_resume_resume_count]
  · rcases resp with ⟨st, l⟩
    cases st <;> first
      | rfl
      | (simp [data_req_aligned]; split <;> rfl)
  · rcases resp with ⟨st, l⟩
    cases st <;>
      (simp [exec_misaligned, data_req_aligned, invoke_stall_callback,
         run_resume_misaligned_size];
       try (split <;> simp [run_resume_misaligned_size]))

/-- C6 counterexample: a misaligned submission whose first half is
accepted-but-pending returns the Rejected outcome, yet starting from the
clean state it has suspended the instruction once, overwritten the
pending-access record's remaining size to 3, and accounted one misaligned
timing event — side effects beyond the diagnostic. -/
theorem c6_reject_with_side_effects :
    (data_req 4 initState (IoStatus.pending, 0) 3 0 4 false).2 = IoStatus.invalid
    ∧ (data_req 4 initState (IoStatus.pending, 0) 3 0 4 false).1.insn_stall_count = 1
    ∧ (data_req 4 initState (IoStatus.pending, 0) 3 0 4 false).1.misaligned_size = 3
    ∧ (data_req 4 initState (IoStatus.pending, 0) 3 0 4 false).1.misaligned_events = 1 := by
  decide

/-- C6 (amended): an aligned-path submission that the interface rejects
has no side effects beyond the diagnostic — no suspension or hold, no
resume registered or invoked, pending-access record and all timing
accounts unchanged.  A misaligned submission returning the Rejected
outcome, in contrast, has already accounted a misaligned event and
overwritten the pending-access record, and when its first half was
accepted-but-pending it has also suspended the instruction. -/
theorem c6_aligned_reject_frame (g : Nat) (s : SimState) (lat : Nat)
    (addr off size : Nat) (w : Bool) :
    (data_req_aligned s (IoStatus.invalid, lat) addr off size w).2 = IoStatus.invalid
    ∧ (data_req_aligned s (IoStatus.invalid, lat) addr off size w).1.invalid_access_warnings
        = s.invalid_access_warnings ++ [(s.current_insn_addr, addr, size, w)]
    ∧ (data_req_aligned s (IoStatus.invalid, lat) addr off size w).1.stalled = s.stalled
    ∧ (data_req_aligned s (IoStatus.invalid, lat) addr off size w).1.insn_stall_count
        = s.insn_stall_count
    ∧ (data_req_aligned s (IoStatus.invalid, lat) addr off size w).1.insn_hold_count
        = s.insn_hold_count
    ∧ (data_req_aligned s (IoStatus.invalid, lat) addr off size w).1.resume_count
        = s.resume_count
    ∧ (data_req_aligned s (IoStatus.invalid, lat) addr off size w).1.stall_callback
        = s.stall_callback
    ∧ (data_req_aligned s (IoStatus.invalid, lat) addr off size w).1.misaligned_size
        = s.misaligned_size
    ∧ (data_req_aligned s (IoStatus.invalid, lat) addr off size w).1.misaligned_addr
        = s.misaligned_addr
    ∧ (data_req_aligned s (IoStatus.invalid, lat) addr off size w).1.misaligned_data
        = s.misaligned_data
    ∧ (data_req_aligned s (IoStatus.invalid, lat) addr off size w).1.misaligned_is_write
        = s.misaligned_is_write
    ∧ (data_req_aligned s (IoStatus.invalid, lat) addr off size w).1.stall_load_cycles
        = s.stall_load_cycles
    ∧ (data_req_aligned s (IoStatus.invalid, lat) addr off size w).1.load_events
        = s.load_events
    ∧ (data_req_aligned s (IoStatus.invalid, lat) addr off size w).1.misaligned_events
        = s.misaligned_events
    ∧ (data_req_aligned s (IoStatus.invalid, lat) addr off size w).1.cycles = s.cycles
    ∧ (data_misaligned_req g s (IoStatus.pending, lat) addr off size w).2 = IoStatus.invalid
    ∧ (data_misaligned_req g s (IoStatus.pending, lat) addr off size w).1.misaligned_events
        = s.misaligned_events + 1
    ∧ (data_misaligned_req g s (IoStatus.pending, lat) addr off size w).1.insn_stall_count
        = s.insn_stall_count + 1
    ∧ (data_misaligned_req g s (IoStatus.invalid, lat) addr off size w).2
        = IoStatus.invalid
    ∧ (data_misaligned_req g s (IoStatus.invalid, lat) addr off size w).1.misaligned_events
        = s.misaligned_events + 1 := by
  refine ⟨rfl, ?_, rfl, rfl, rfl, rfl, rfl, rfl, rfl, rfl, rfl, rfl, rfl, rfl, rfl,
    ?_, ?_, ?_, ?_, ?_⟩ <;>
    simp [data_req_aligned, data_misaligned_req]

/-- C4: the aligned path maps the memory interface's three outcomes as
specified.  Immediate success adds the returned latency to the timing
model's stall account (a change exactly when the latency is nonzero), does
not suspend, and returns success.  Permanent rejection emits a diagnostic
carrying program counter, address, size and direction, does not suspend,
never invokes a resume action, and returns the rejection.  The remaining
(accepted-but-pending) status suspends the current instruction and returns
the pending status. -/
theorem c4_aligned_path_outcomes (s : SimState) (lat : Nat) (addr off size : Nat)
    (w : Bool) :
    ((data_req_aligned s (IoStatus.ok, lat) addr off size w).2 = IoStatus.ok
      ∧ (data_req_aligned s (IoStatus.ok, lat) addr off size w).1.stall_load_cycles
          = s.stall_load_cycles + lat
      ∧ ((data_req_aligned s (IoStatus.ok, lat) addr off size w).1.stall_load_cycles
          = s.stall_load_cycles ↔ lat = 0)
      ∧ (data_req_aligned s (IoStatus.ok, lat) addr off size w).1.insn_stall_count
          = s.insn_stall_count
      ∧ (data_req_aligned s (IoStatus.ok, lat) addr off size w).1.stalled = s.stalled)
    ∧ ((data_req_aligned s (IoStatus.invalid, lat) addr off size w).2 = IoStatus.invalid
      ∧ (data_req_aligned s (IoStatus.invalid, lat) addr off size w).1.invalid_access_warnings
          = s.invalid_access_warnings ++ [(s.current_insn_addr, addr, size, w)]
      ∧ (data_req_aligned s (IoStatus.invalid, lat) addr off size w).1.insn_stall_count
          = s.insn_stall_count
      ∧ (data_req_aligned s (IoStatus.invalid, lat) addr off size w).1.stalled = s.stalled
      ∧ (data_req_aligned s (IoStatus.invalid, lat) addr off size w).1.resume_count
          = s.resume_count)
    ∧ ((data_req_aligned s (IoStatus.pending, lat) addr off size w).2 = IoStatus.pending
      ∧ (data_req_aligned s (IoStatus.pending, lat) addr off size w).1.insn_stall_count
          = s.insn_stall_count + 1
      ∧ (data_req_aligned s (IoStatus.pending, lat) addr off size w).1.stalled
          = s.stalled + 1) := by
  refine ⟨⟨rfl, ?_, ?_, ?_, ?_⟩, ⟨rfl, rfl, rfl, rfl, rfl⟩, rfl, rfl, rfl⟩ <;>
    simp [data_req_aligned] <;> split <;> simp_all

/-- C5: in the misaligned path, an immediately successful first sub-access
registers the deferred-second-half callback on the instruction event,
holds the instruction, and returns pending, without any forced
diagnostic; a first sub-access answered with rejection or with
accepted-but-pending instead emits one forced diagnostic and returns the
Rejected outcome, with no hold, no second submission attempted (exactly
one request was issued), and no resume dispatched. -/
theorem c5_misaligned_path_outcomes (g : Nat) (s : SimState) (lat : Nat)
    (addr off size : Nat) (w : Bool) :
    ((data_misaligned_req g s (IoStatus.ok, lat) addr off size w).2 = IoStatus.pending
      ∧ (data_misaligned_req g s (IoStatus.ok, lat) addr off size w).1.instr_event_is_exec_misaligned
          = true
      ∧ (data_misaligned_req g s (IoStatus.ok, lat) addr off size w).1.insn_hold_count
          = s.insn_hold_count + 1
      ∧ (data_misaligned_req g s (IoStatus.ok, lat) addr off size w).1.unimpl_forced_warnings
          = s.unimpl_forced_warnings)
    ∧ ((data_misaligned_req g s (IoStatus.invalid, lat) addr off size w).2 = IoStatus.invalid
      ∧ (data_misaligned_req g s (IoStatus.invalid, lat) addr off size w).1.unimpl_forced_warnings
          = s.unimpl_forced_warnings + 1
      ∧ (data_misaligned_req g s (IoStatus.invalid, lat) addr off size w).1.insn_hold_count
          = s.insn_hold_count
      ∧ (data_misaligned_req g s (IoStatus.invalid, lat) addr off size w).1.reqs.length
          = s.reqs.length + 1
      ∧ (data_misaligned_req g s (IoStatus.invalid, lat) addr off size w).1.resume_count
          = s.resume_count)
    ∧ ((data_misaligned_req g s (IoStatus.pending, lat) addr off size w).2 = IoStatus.invalid
      ∧ (data_misaligned_req g s (IoStatus.pending, lat) addr off size w).1.unimpl_forced_warnings
          = s.unimpl_forced_warnings + 1
      ∧ (data_misaligned_req g s (IoStatus.pending, lat) addr off size w).1.insn_hold_count
          = s.insn_hold_count
      ∧ (data_misaligned_req g s (IoStatus.pending, lat) addr off size w).1.reqs.length
          = s.reqs.length + 1
      ∧ (data_misaligned_req g s (IoStatus.pending, lat) addr off size w).1.resume_count
          = s.resume_count) := by
  refine ⟨⟨?_, ?_, ?_, ?_⟩, ⟨?_, ?_, ?_, ?_, ?_⟩, ?_, ?_, ?_, ?_, ?_⟩ <;>
    simp [data_misaligned_req, data_req_aligned] <;> split <;> rfl

/-- C9: when the first and the last addressed byte fall in the same
granule, `data_req` behaves exactly as one aligned-path submission: it
issues exactly that one request, and every field of the pending-access
record (remaining size, address, buffer offset and direction) is left
unchanged. -/
theorem c9_aligned_routing (g : Nat) (s : SimState) (resp : IoStatus × Nat)
    (addr off size : Nat) (w : Bool)
    (halign : align g addr = align g (addr + size - 1)) :
    data_req g s resp addr off size w = data_req_aligned s resp addr off size w
    ∧ (data_req g s resp addr off size w).1.reqs = s.reqs ++ [(addr, off, size, w)]
    ∧ (data_req g s resp addr off size w).1.misaligned_size = s.misaligned_size
    ∧ (data_req g s resp addr off size w).1.misaligned_addr = s.misaligned_addr
    ∧ (data_req g s resp addr off size w).1.misaligned_data = s.misaligned_data
    ∧ (data_req g s resp addr off size w).1.misaligned_is_write = s.misaligned_is_write := by
  have h0 : data_req g s resp addr off size w = data_req_aligned s resp addr off size w := by
    unfold data_req
    rw [if_pos halign]
  refine ⟨h0, ?_, ?_, ?_, ?_, ?_⟩ <;> rw [h0] <;> rcases resp with ⟨st, l⟩ <;>
    cases st <;> first
      | rfl
      | (simp [data_req_aligned]; split <;> rfl)

/-- C9 witness: a 4-byte access at address 8 with granule 4 stays inside
one granule and is routed, unchanged, through the aligned path. -/
theorem c9_aligned_routing_witness :
    align 4 8 = align 4 (8 + 4 - 1)
    ∧ data_req 4 initState (IoStatus.ok, 1) 8 0 4 false
        = data_req_aligned initState (IoStatus.ok, 1) 8 0 4 false :=
  ⟨by decide,
    (c9_aligned_routing 4 initState (IoStatus.ok, 1) 8 0 4 false (by decide)).1⟩

/-- C3: an access of positive size at most one granule wide whose first
and last byte fall in different granules is routed by `data_req` to the
misaligned path, which accounts one misaligned event, submits the first
sub-access `(addr, size0, same direction)` where `size0` spans up to the
next granule base `a1 = align addr + g`, and saves into the pending-access
record the remaining address `a1`, the remaining buffer offset `size0`,
the remaining size `size - size0` and the original direction; the two
sub-sizes sum exactly to the original size. -/
theorem c3_misaligned_split (g : Nat) (s : SimState) (resp : IoStatus × Nat)
    (addr off size : Nat) (w : Bool) (hg : 0 < g) (hs : 0 < size) (hsg : size ≤ g)
    (hcross : align g addr ≠ align g (addr + size - 1)) :
    align g (addr + size - 1) = align g addr + g
    ∧ (data_req g s resp addr off size w).1.reqs
        = s.reqs ++ [(addr, off, align g (addr + size - 1) - addr, w)]
    ∧ (data_req g s resp addr off size w).1.misaligned_addr
        = align g (addr + size - 1)
    ∧ (data_req g s resp addr off size w).1.misaligned_data
        = off + (align g (addr + size - 1) - addr)
    ∧ (data_req g s resp addr off size w).1.misaligned_size
        = size - (align g (addr + size - 1) - addr)
    ∧ (data_req g s resp addr off size w).1.misaligned_is_write = w
    ∧ (data_req g s resp addr off size w).1.misaligned_events
        = s.misaligned_events + 1
    ∧ (align g (addr + size - 1) - addr)
        + (size - (align g (addr + size - 1) - addr)) = size := by
  have ha1 : align g (addr + size - 1) = align g addr + g :=
    align_next_granule g addr size hg hs hsg hcross
  have hle : align g (addr + size - 1) ≤ addr + size - 1 := align_le g _
  have h0 : data_req g s resp addr off size w
      = data_misaligned_req g s resp addr off size w := by
    unfold data_req
    rw [if_neg hcross]
  refine ⟨ha1, ?_, ?_, ?_, ?_, ?_, ?_, ?_⟩
  all_goals try
    (rw [h0] <;> rcases resp with ⟨st, l⟩ <;>
      cases st <;>
        (simp [data_misaligned_req, data_req_aligned];
         try (split <;> rfl)))
  omega

/-- C3 witness: a 4-byte access at address 3 with granule 4 crosses the
boundary at 4; the next granule base is 4 = 0 + 4. -/
theorem c3_misaligned_split_witness :
    (0 < 4 ∧ 0 < 4 ∧ 4 ≤ 4 ∧ align 4 3 ≠ align 4 (3 + 4 - 1))
    ∧ align 4 (3 + 4 - 1) = align 4 3 + 4 :=
  ⟨⟨by decide, by decide, by decide, by decide⟩,
    (c3_misaligned_split 4 initState (IoStatus.ok, 0) 3 0 4 true
      (by decide) (by decide) (by decide) (by decide)).1⟩

/-- C7: atomic operations and sign extension.  On immediate success the
destination register holds the raw returned value at native width and the
sign-extension of the returned value at the access width exactly when the
access is narrower than the native register width, with no suspension.
On a pending outcome the instruction is suspended, and the selected resume
action is the sign-extension resume with the destination register index
and width recorded when narrower than native, and the plain completion
resume otherwise; the sign-extension resume later rewrites the recorded
register as the sign-extension at the recorded width while the plain
resume leaves the register file untouched. -/
theorem c7_atomic_sign_extension (s t : SimState) (lat ret addr size rin rout : Nat)
    (op : IoOpcode) :
    ((atomic s false false ⟨IoStatus.ok, lat, ret⟩ addr size rin rout op).regfile rout
        = (if size = s.xlen / 8 then ret
           else iss_get_signed_value s.xlen ret (size * 8)))
    ∧ (atomic s false false ⟨IoStatus.ok, lat, ret⟩ addr size rin rout op).insn_stall_count
        = s.insn_stall_count
    ∧ (atomic s false false ⟨IoStatus.pending, lat, ret⟩ addr size rin rout op).insn_stall_count
        = s.insn_stall_count + 1
    ∧ (atomic s false false ⟨IoStatus.pending, lat, ret⟩ addr size rin rout op).stalled
        = s.stalled + 1
    ∧ (atomic s false false ⟨IoStatus.pending, lat, ret⟩ addr size rin rout op).stall_callback
        = (if size = s.xlen / 8 then ResumeAction.storeResume
           else ResumeAction.loadSignedResume)
    ∧ (atomic s false false ⟨IoStatus.pending, lat, ret⟩ addr size rin rout op).stall_reg
        = (if size = s.xlen / 8 then s.stall_reg else rout)
    ∧ (atomic s false false ⟨IoStatus.pending, lat, ret⟩ addr size rin rout op).stall_size
        = (if size = s.xlen / 8 then s.stall_size else size)
    ∧ (run_resume ResumeAction.loadSignedResume t).regfile t.stall_reg
        = iss_get_signed_value t.xlen (t.regfile t.stall_reg) (t.stall_size * 8)
    ∧ (run_resume ResumeAction.storeResume t).regfile = t.regfile := by
  by_cases hsz : size = s.xlen / 8 <;>
    refine ⟨?_, ?_, ?_, ?_, ?_, ?_, ?_, ?_, ?_⟩ <;>
      simp [atomic, set_reg, run_resume, load_signed_resume, store_resume, hsz] <;>
      split <;> simp [set_reg]

/-- When the consulted translation flag reports success, an atomic
operation records exactly one submitted request. -/
lemma atomic_submit_reqs (s : SimState) (lf sf : Bool) (st : IoStatus) (lat ret : Nat)
    (addr size rin rout : Nat) (op : IoOpcode)
    (h : (if op = IoOpcode.LR then lf else sf) = false) :
    (atomic s lf sf ⟨st, lat, ret⟩ addr size rin rout op).atomic_reqs
      = s.atomic_reqs ++ [(addr, size, op, rin, rout, s.mhartid)] := by
  unfold atomic
  rw [h]
  cases st <;> simp only [Bool.false_eq_true, if_false] <;>
    first
      | rfl
      | (split <;> rfl)
      | (split <;> split <;> rfl)

/-- C8: atomic address translation.  The load-translation path is
consulted exactly for the load-reserved opcode and the store-translation
path for all other opcodes, and a failed translation aborts the operation
with the state left completely unchanged — no request submitted, no timing
recorded, no resume action registered or invoked — while a successful
translation submits exactly one request regardless of the other
translation flag. -/
theorem c8_atomic_xlat_paths (s : SimState) (lf sf : Bool) (resp : AtomicResp)
    (addr size rin rout : Nat) :
    atomic s true sf resp addr size rin rout IoOpcode.LR = s
    ∧ atomic s lf true resp addr size rin rout IoOpcode.SC = s
    ∧ atomic s lf true resp addr size rin rout IoOpcode.SWAP = s
    ∧ atomic s lf true resp addr size rin rout IoOpcode.ADD = s
    ∧ (atomic s false sf resp addr size rin rout IoOpcode.LR).atomic_reqs.length
        = s.atomic_reqs.length + 1
    ∧ (atomic s lf false resp addr size rin rout IoOpcode.SC).atomic_reqs.length
        = s.atomic_reqs.length + 1
    ∧ (atomic s lf false resp addr size rin rout IoOpcode.SWAP).atomic_reqs.length
        = s.atomic_reqs.length + 1
    ∧ (atomic s lf false resp addr size rin rout IoOpcode.ADD).atomic_reqs.length
        = s.atomic_reqs.length + 1 := by
  rcases resp with ⟨st, lat, ret⟩
  refine ⟨rfl, rfl, rfl, rfl, ?_, ?_, ?_, ?_⟩ <;>
    rw [atomic_submit_reqs s _ _ st lat ret addr size rin rout _ (by simp)] <;>
    simp
